import Mathlib

set_option maxHeartbeats 1000000

/-!
Shallow embedding of `src/src/libmysqlclient_cpp_wrapper.h`
(a thin C++ RAII wrapper over libmysqlclient / libmariadb).

The native library itself (mysql_real_connect, mysql_stmt_fetch, ...) is
outside the repository; its calls are modelled by passing their return value
(and, where the wrapper reads it, the text the native error-reporting
function would return) as an explicit argument to the embedded operation.
Pointers are modelled as natural-number addresses.  Thrown C++ exceptions
are modelled by an explicit `CppException` value returned alongside the
post-state.
-/

/-- The subset of the native `enum_field_types` enumeration used by the
wrapper.  `MYSQL_TYPE_DECIMAL` is the enumerator with value 0, i.e. the
value a `memset`-zeroed `MYSQL_BIND::buffer_type` holds. -/
inductive enum_field_types where
  | MYSQL_TYPE_DECIMAL
  | MYSQL_TYPE_TINY
  | MYSQL_TYPE_SHORT
  | MYSQL_TYPE_LONG
  | MYSQL_TYPE_FLOAT
  | MYSQL_TYPE_DOUBLE
  | MYSQL_TYPE_LONGLONG
  | MYSQL_TYPE_BLOB
  | MYSQL_TYPE_STRING
deriving DecidableEq, Repr

/-- The native binding descriptor.  Besides the three fields the wrapper
assigns (`buffer_type`, `buffer`, `buffer_length`), representative further
fields of the native struct are modelled; `memset(&parameter, 0, ...)`
zeroes all of them. `buffer` is a pointer, modelled as an address. -/
structure MYSQL_BIND where
  buffer_type : enum_field_types
  buffer : Nat
  buffer_length : Nat
  length : Nat
  is_null : Nat
  error : Nat
  is_unsigned : Nat
deriving DecidableEq, Repr

/-- A `MYSQL_BIND` right after `memset(&parameter, 0, sizeof(parameter))`. -/
def zeroBind : MYSQL_BIND :=
  { buffer_type := .MYSQL_TYPE_DECIMAL, buffer := 0, buffer_length := 0,
    length := 0, is_null := 0, error := 0, is_unsigned := 0 }

/-- C++ exceptions thrown by the wrapper. -/
inductive CppException where
  | runtime_error (msg : String)
  | logic_error (msg : String)
  | out_of_range
deriving DecidableEq, Repr

/-- The state of a `MySQLPreparedStatement` that the wrapper itself
maintains: the two descriptor vectors and the stored error code
(`m_stmt` is an opaque native handle and carries no modelled state). -/
structure MySQLPreparedStatement where
  m_parameters : List MYSQL_BIND
  m_results : List MYSQL_BIND
  m_errorCode : Int
deriving DecidableEq, Repr

/-- Statement state right after the constructor. -/
def freshStatement : MySQLPreparedStatement :=
  { m_parameters := [], m_results := [], m_errorCode := 0 }

/- sizeof(...) of the C++ argument types on the usual LP64/LLP64 targets. -/

def sizeof_char : Nat := 1

def sizeof_short : Nat := 2

def sizeof_int : Nat := 4

def sizeof_longlong : Nat := 8

def sizeof_float : Nat := 4

def sizeof_double : Nat := 8

/-- The descriptor built by `addParameter`/`addResult`: `memset` to zero,
then the three fields assigned. -/
def mkBind (bufferType : enum_field_types) (buffer bufferLength : Nat) : MYSQL_BIND :=
  { zeroBind with buffer_type := bufferType, buffer := buffer, buffer_length := bufferLength }

/-- `addParameter(enum enum_field_types, const void*, std::size_t)`:
memset a descriptor to zero, fill the three fields, `push_back`. -/
def addParameter (st : MySQLPreparedStatement) (bufferType : enum_field_types)
    (buffer : Nat) (bufferLength : Nat) : MySQLPreparedStatement :=
  { st with m_parameters := st.m_parameters ++ [mkBind bufferType buffer bufferLength] }

/-- `addParameter(const void*, unsigned long)`. -/
def addParameter_bytes (st : MySQLPreparedStatement) (buffer bufferLength : Nat) :
    MySQLPreparedStatement :=
  addParameter st .MYSQL_TYPE_BLOB buffer bufferLength

/-- `addParameter(const char&)`. -/
def addParameter_char (st : MySQLPreparedStatement) (addr : Nat) :
    MySQLPreparedStatement :=
  addParameter st .MYSQL_TYPE_TINY addr sizeof_char

/-- `addParameter(const short&)`. -/
def addParameter_short (st : MySQLPreparedStatement) (addr : Nat) :
    MySQLPreparedStatement :=
  addParameter st .MYSQL_TYPE_SHORT addr sizeof_short

/-- `addParameter(const int&)`. -/
def addParameter_int (st : MySQLPreparedStatement) (addr : Nat) :
    MySQLPreparedStatement :=
  addParameter st .MYSQL_TYPE_LONG addr sizeof_int

/-- `addParameter(const long long&)`. -/
def addParameter_longlong (st : MySQLPreparedStatement) (addr : Nat) :
    MySQLPreparedStatement :=
  addParameter st .MYSQL_TYPE_LONGLONG addr sizeof_longlong

/-- `addParameter(const float&)`. -/
def addParameter_float (st : MySQLPreparedStatement) (addr : Nat) :
    MySQLPreparedStatement :=
  addParameter st .MYSQL_TYPE_FLOAT addr sizeof_float

/-- `addParameter(const double&)` (source lines 266-269): note the source
passes `MYSQL_TYPE_FLOAT` while `sizeof(value)` is `sizeof(double)`. -/
def addParameter_double (st : MySQLPreparedStatement) (addr : Nat) :
    MySQLPreparedStatement :=
  addParameter st .MYSQL_TYPE_FLOAT addr sizeof_double

/-- `addParameter(const char*, std::size_t)`. -/
def addParameter_string (st : MySQLPreparedStatement) (addr size : Nat) :
    MySQLPreparedStatement :=
  addParameter st .MYSQL_TYPE_STRING addr size

/-- `addResult(enum enum_field_types, void*, std::size_t)`. -/
def addResult (st : MySQLPreparedStatement) (bufferType : enum_field_types)
    (buffer : Nat) (bufferLength : Nat) : MySQLPreparedStatement :=
  { st with m_results := st.m_results ++ [mkBind bufferType buffer bufferLength] }

/-- `addResult(void*, std::size_t)`. -/
def addResult_bytes (st : MySQLPreparedStatement) (buffer bufferLength : Nat) :
    MySQLPreparedStatement :=
  addResult st .MYSQL_TYPE_BLOB buffer bufferLength

/-- `addResult(char&)`. -/
def addResult_char (st : MySQLPreparedStatement) (addr : Nat) :
    MySQLPreparedStatement :=
  addResult st .MYSQL_TYPE_TINY addr sizeof_char

/-- `addResult(short&)`. -/
def addResult_short (st : MySQLPreparedStatement) (addr : Nat) :
    MySQLPreparedStatement :=
  addResult st .MYSQL_TYPE_SHORT addr sizeof_short

/-- `addResult(int&)`. -/
def addResult_int (st : MySQLPreparedStatement) (addr : Nat) :
    MySQLPreparedStatement :=
  addResult st .MYSQL_TYPE_LONG addr sizeof_int

/-- `addResult(long long&)`. -/
def addResult_longlong (st : MySQLPreparedStatement) (addr : Nat) :
    MySQLPreparedStatement :=
  addResult st .MYSQL_TYPE_LONGLONG addr sizeof_longlong

/-- `addResult(float&)`. -/
def addResult_float (st : MySQLPreparedStatement) (addr : Nat) :
    MySQLPreparedStatement :=
  addResult st .MYSQL_TYPE_FLOAT addr sizeof_float

/-- `addResult(double&)` (source lines 336-339). -/
def addResult_double (st : MySQLPreparedStatement) (addr : Nat) :
    MySQLPreparedStatement :=
  addResult st .MYSQL_TYPE_DOUBLE addr sizeof_double

/-- `addResult(char*, std::size_t)`. -/
def addResult_string (st : MySQLPreparedStatement) (addr size : Nat) :
    MySQLPreparedStatement :=
  addResult st .MYSQL_TYPE_STRING addr size

/-- `setParameterLength(std::size_t, std::size_t)`: `vector::at` is
bounds-checked and throws `std::out_of_range` on a bad index. -/
def setParameterLength (st : MySQLPreparedStatement) (index length : Nat) :
    Except CppException MySQLPreparedStatement :=
  if h : index < st.m_parameters.length then
    .ok { st with m_parameters := st.m_parameters.set index { st.m_parameters.get ⟨index, h⟩ with buffer_length := length } }
  else
    .error .out_of_range

/-- `mysql_stmt_prepare` wrapper (`prepare`).  `nativeRes` is the native
call's return value and `etext` the text `mysql_stmt_error` reports at
that point.  Returns the post-state and the thrown exception, if any. -/
def prepare (st : MySQLPreparedStatement) (nativeRes : Int) (etext : String) :
    MySQLPreparedStatement × Option CppException :=
  let st1 := { st with m_errorCode := nativeRes }
  if nativeRes ≠ 0 then
    (st1, some (.runtime_error ("failed to prepare prepared statement: " ++ etext)))
  else
    (st1, none)

/-- `bindParameters`.  Third component: whether `mysql_stmt_bind_param`
was invoked. -/
def bindParameters (st : MySQLPreparedStatement) (nativeRes : Int)
    (etext : String) : MySQLPreparedStatement × Option CppException × Bool :=
  if st.m_parameters.isEmpty then
    (st, some (.logic_error "there are no parameters"), false)
  else
    let st1 := { st with m_errorCode := nativeRes }
    if nativeRes ≠ 0 then
      (st1, some (.runtime_error
        ("failed to bind parameters prepared statement: " ++ etext)), true)
    else
      (st1, none, true)

/-- `bindResults`.  Third component: whether `mysql_stmt_bind_result`
was invoked. -/
def bindResults (st : MySQLPreparedStatement) (nativeRes : Int)
    (etext : String) : MySQLPreparedStatement × Option CppException × Bool :=
  if st.m_results.isEmpty then
    (st, some (.logic_error "there are no results"), false)
  else
    let st1 := { st with m_errorCode := nativeRes }
    if nativeRes ≠ 0 then
      (st1, some (.runtime_error
        ("failed to bind results prepared statement: " ++ etext)), true)
    else
      (st1, none, true)

/-- `execute` (`mysql_stmt_execute` wrapper). -/
def execute (st : MySQLPreparedStatement) (nativeRes : Int) (etext : String) :
    MySQLPreparedStatement × Option CppException :=
  let st1 := { st with m_errorCode := nativeRes }
  if nativeRes ≠ 0 then
    (st1, some (.runtime_error ("failed to execute prepared statement: " ++ etext)))
  else
    (st1, none)

/-- `MYSQL_NO_DATA` from `mysql.h`. -/
def MYSQL_NO_DATA : Int := 100

/-- `fetch` (`mysql_stmt_fetch` wrapper): returns the `bool` result when
the function returns, or the thrown exception.  It reads or writes no
wrapper state. -/
def fetch (nativeRes : Int) : Option Bool × Option CppException :=
  if nativeRes = 0 then (some true, none)
  else if nativeRes = MYSQL_NO_DATA then (some false, none)
  else (none, some (.runtime_error "failed to fetch data"))

/-- `stop` (`mysql_stmt_free_result` wrapper). -/
def stop (nativeRes : Int) : Option CppException :=
  if nativeRes ≠ 0 then some (.runtime_error "failed to stop prepared statement")
  else none

/-- `MySQLConnection::connect` (`mysql_real_connect` wrapper):
`nativeRes` is the returned `MYSQL*`, `none` standing for null. -/
def connect (nativeRes : Option Nat) : Option CppException :=
  match nativeRes with
  | none => some (.runtime_error "could not connect to database server")
  | some _ => none

/-- `MySQLConnection::setAutoCommit` (`mysql_autocommit` wrapper). -/
def setAutoCommit (autoCommit : Bool) (nativeRes : Int) : Option CppException :=
  if nativeRes ≠ 0 then
    some (.runtime_error ("could not set autocommit mode to "
      ++ (if autoCommit then "on" else "off")))
  else none

/-- `MySQLConnection::getServerVersion` (`mysql_get_server_version`
wrapper): returns the native value, `noexcept`, no failure path. -/
def getServerVersion (nativeVal : Nat) : Nat := nativeVal

/-! ## MySQLClientLibrary lifecycle (constructor / destructor / createOrGet) -/

/-- The private `MySQLClientLibrary` constructor: `m_errorCode` is set to
`mysql_library_init`'s return value; non-zero throws.  On success the
result carries the stored `m_errorCode`. -/
def mySQLClientLibraryCtor (initRes : Int) : Except CppException Int :=
  if initRes ≠ 0 then
    .error (.runtime_error "failed to initialize MySQL client library")
  else
    .ok initRes

/-- `~MySQLClientLibrary`: whether it calls `mysql_library_end`, given the
stored `m_errorCode`. -/
def mySQLClientLibraryDtor (m_errorCode : Int) : Bool :=
  m_errorCode == 0

/-- Full construct-then-destruct lifecycle for a given native init result:
the construction outcome, paired with whether `mysql_library_end` is ever
invoked.  When the constructor throws, the destructor never runs, so
`mysql_library_end` is not called. -/
def libraryLifecycle (initRes : Int) : Except CppException Int × Bool :=
  match mySQLClientLibraryCtor initRes with
  | .error e => (.error e, false)
  | .ok ec => (.ok ec, mySQLClientLibraryDtor ec)

/-- The state relevant to `MySQLClientLibrary::createOrGet`: the set of
live instances (by id), the `m_instance` weak reference, and a fresh-id
counter. -/
structure LibRegistry where
  live : List Nat
  weakInst : Option Nat
  next : Nat
deriving DecidableEq, Repr

/-- `m_instance.lock()`: a usable shared reference only when the weak
reference's target is still alive. -/
def lockWeak (r : LibRegistry) : Option Nat :=
  match r.weakInst with
  | some i => if i ∈ r.live then some i else none
  | none => none

/-- `MySQLClientLibrary::createOrGet` (source lines 70-79): reuse the
existing instance when the weak reference locks, otherwise construct a
new instance and store it in `m_instance`. -/
def createOrGet (r : LibRegistry) : Nat × LibRegistry :=
  match lockWeak r with
  | some i => (i, r)
  | none => (r.next, { live := r.next :: r.live, weakInst := some r.next, next := r.next + 1 })

/-- Events acting on the registry: a `createOrGet` call, or the drop of
the last shared reference to instance `i` (running its destructor). -/
inductive RegEv where
  | callCreateOrGet
  | releaseLast (i : Nat)
deriving DecidableEq, Repr

def regStep (r : LibRegistry) : RegEv → Option LibRegistry
  | .callCreateOrGet => some (createOrGet r).2
  | .releaseLast i => if i ∈ r.live then some { r with live := r.live.erase i } else none

def regRun (r : LibRegistry) : List RegEv → Option LibRegistry
  | [] => some r
  | e :: es =>
    match regStep r e with
    | none => none
    | some r2 => regRun r2 es

/-- Process start: no instance ever created. -/
def initRegistry : LibRegistry := { live := [], weakInst := none, next := 0 }

/-- Registry invariant: at most one live instance, and `m_instance`
refers to every live instance. -/
def RegInv (r : LibRegistry) : Prop :=
  r.live.length ≤ 1 ∧ ∀ i ∈ r.live, r.weakInst = some i

/-! ## Error-text machinery for the failure-reporting policy -/

/-- Whether `xs` occurs contiguously inside `ys`. -/
def listInfix (xs ys : List Char) : Bool :=
  (List.range (ys.length + 1)).any (fun k => xs.isPrefixOf (ys.drop k))

/-- Whether the error text `etext` occurs inside the message `msg`. -/
def containsText (msg etext : String) : Bool :=
  listInfix etext.data msg.data

/-- The `what()` text of a modelled exception. -/
def exnMsg : CppException → String
  | .runtime_error m => m
  | .logic_error m => m
  | .out_of_range => "out_of_range"

/-- An operation's outcome carries the native error text `etext` if any
exception it throws mentions `etext` in its message. -/
def msgCarriesNative (exn : Option CppException) (etext : String) : Prop :=
  ∀ e, exn = some e → containsText (exnMsg e) etext = true

/-- The failure-reporting policy as the specification states it: every
wrapper operation that forwards to a native call reports failures with a
message carrying the text of the native error-reporting function
(`etext` models that text at the moment of failure). -/
def nativeErrorTextAlwaysCarried : Prop :=
  ∀ etext : String,
    (∀ r, msgCarriesNative (connect r) etext)
    ∧ (∀ (b : Bool) (res : Int), msgCarriesNative (setAutoCommit b res) etext)
    ∧ (∀ (st : MySQLPreparedStatement) (res : Int), msgCarriesNative (prepare st res etext).2 etext)
    ∧ (∀ (st : MySQLPreparedStatement) (res : Int), st.m_parameters ≠ [] →
        msgCarriesNative (bindParameters st res etext).2.1 etext)
    ∧ (∀ (st : MySQLPreparedStatement) (res : Int), st.m_results ≠ [] →
        msgCarriesNative (bindResults st res etext).2.1 etext)
    ∧ (∀ (st : MySQLPreparedStatement) (res : Int), msgCarriesNative (execute st res etext).2 etext)
    ∧ (∀ res : Int, msgCarriesNative (fetch res).2 etext)
    ∧ (∀ res : Int, msgCarriesNative (stop res) etext)

/-! ## Ownership chain and release order

`MySQLPreparedStatement` holds `std::shared_ptr<MySQLConnection> m_conn`,
`MySQLConnection` holds `std::shared_ptr<MySQLClientLibrary> m_library`.
The model tracks, for one library / connection / statement chain, the
user-held shared references, the two member-held references, and how many
times each native release (`mysql_library_end` / `mysql_close` /
`mysql_stmt_close`) has run.  Destruction is driven purely by reference
counts reaching zero, exactly as `shared_ptr` does. -/

structure OwnSt where
  libCreated : Nat
  connCreated : Nat
  stmtCreated : Nat
  libUser : Nat
  connUser : Nat
  stmtUser : Nat
  connHoldsLib : Nat
  stmtHoldsConn : Nat
  libFreed : Nat
  connFreed : Nat
  stmtFreed : Nat
deriving DecidableEq, Repr

/-- Total shared-reference count on the library. -/
def libRefs (s : OwnSt) : Nat :=
  s.libUser + s.connHoldsLib

/-- Total shared-reference count on the connection. -/
def connRefs (s : OwnSt) : Nat :=
  s.connUser + s.stmtHoldsConn

/-- `~MySQLClientLibrary` runs (with `m_errorCode == 0`): `mysql_library_end`. -/
def destroyLib (s : OwnSt) : OwnSt :=
  { s with libFreed := s.libFreed + 1 }

/-- The `m_library` member's destructor, run at the end of
`~MySQLConnection`: drop the reference; destroy the library when the
count reaches zero. -/
def releaseLibRef (s : OwnSt) : OwnSt :=
  if s.connHoldsLib = 0 then s
  else if s.libUser = 0 then destroyLib { s with connHoldsLib := 0 }
  else { s with connHoldsLib := 0 }

/-- `~MySQLConnection`: body runs `mysql_close`, then member `m_library`
is destroyed. -/
def destroyConn (s : OwnSt) : OwnSt :=
  releaseLibRef { s with connFreed := s.connFreed + 1 }

/-- The `m_conn` member's destructor, run at the end of
`~MySQLPreparedStatement`. -/
def releaseConnRef (s : OwnSt) : OwnSt :=
  if s.stmtHoldsConn = 0 then s
  else if s.connUser = 0 then destroyConn { s with stmtHoldsConn := 0 }
  else { s with stmtHoldsConn := 0 }

/-- `~MySQLPreparedStatement`: body runs `mysql_stmt_close`, then member
`m_conn` is destroyed. -/
def destroyStmt (s : OwnSt) : OwnSt :=
  releaseConnRef { s with stmtFreed := s.stmtFreed + 1 }

/-- User-level events: create each wrapper (requires holding a shared
reference to its dependency), copy a user shared reference, drop a user
shared reference.  An event whose precondition fails leaves the state
unchanged. -/
inductive Ev where
  | mkLib
  | mkConn
  | mkStmt
  | dupLib
  | dupConn
  | dupStmt
  | dropLib
  | dropConn
  | dropStmt
deriving DecidableEq, Repr

def stepF (s : OwnSt) : Ev → OwnSt
  | .mkLib =>
    if s.libCreated = 1 then s
    else { s with libCreated := 1, libUser := 1 }
  | .mkConn =>
    if s.connCreated = 1 ∨ s.libUser = 0 then s
    else { s with connCreated := 1, connUser := 1, connHoldsLib := 1 }
  | .mkStmt =>
    if s.stmtCreated = 1 ∨ s.connUser = 0 then s
    else { s with stmtCreated := 1, stmtUser := 1, stmtHoldsConn := 1 }
  | .dupLib => if s.libUser = 0 then s else { s with libUser := s.libUser + 1 }
  | .dupConn => if s.connUser = 0 then s else { s with connUser := s.connUser + 1 }
  | .dupStmt => if s.stmtUser = 0 then s else { s with stmtUser := s.stmtUser + 1 }
  | .dropLib =>
    if s.libUser = 0 then s
    else if s.libUser - 1 + s.connHoldsLib = 0 then destroyLib { s with libUser := s.libUser - 1 }
    else { s with libUser := s.libUser - 1 }
  | .dropConn =>
    if s.connUser = 0 then s
    else if s.connUser - 1 + s.stmtHoldsConn = 0 then destroyConn { s with connUser := s.connUser - 1 }
    else { s with connUser := s.connUser - 1 }
  | .dropStmt =>
    if s.stmtUser = 0 then s
    else if s.stmtUser - 1 = 0 then destroyStmt { s with stmtUser := s.stmtUser - 1 }
    else { s with stmtUser := s.stmtUser - 1 }

/-- Process start. -/
def initOwn : OwnSt :=
  { libCreated := 0, connCreated := 0, stmtCreated := 0,
    libUser := 0, connUser := 0, stmtUser := 0,
    connHoldsLib := 0, stmtHoldsConn := 0,
    libFreed := 0, connFreed := 0, stmtFreed := 0 }

def runOwn (evs : List Ev) : OwnSt :=
  List.foldl stepF initOwn evs

/-- Reachable-state invariant of the ownership chain.  The created /
holds fields are 0-or-1 counters, so most facts are linear inequalities:
e.g. `connHoldsLib ≤ connCreated` says the connection member reference
exists only if the connection was created, `connHoldsLib + connFreed ≤ 1`
says it is gone once the connection is destroyed, and
`connCreated ≤ connFreed + connHoldsLib` says a created, not yet
destroyed connection still holds its `m_library` reference. -/
def OwnInv (s : OwnSt) : Prop :=
  s.libCreated ≤ 1 ∧ s.connCreated ≤ 1 ∧ s.stmtCreated ≤ 1
  ∧ s.connHoldsLib ≤ 1 ∧ s.stmtHoldsConn ≤ 1
  ∧ s.libFreed ≤ 1 ∧ s.connFreed ≤ 1 ∧ s.stmtFreed ≤ 1
  ∧ s.connHoldsLib ≤ s.connCreated
  ∧ s.connHoldsLib + s.connFreed ≤ 1
  ∧ s.connCreated ≤ s.connFreed + s.connHoldsLib
  ∧ s.stmtHoldsConn ≤ s.stmtCreated
  ∧ s.stmtHoldsConn + s.stmtFreed ≤ 1
  ∧ s.stmtCreated ≤ s.stmtFreed + s.stmtHoldsConn
  ∧ s.stmtCreated ≤ s.connCreated
  ∧ s.connCreated ≤ s.libCreated
  ∧ s.libFreed ≤ s.libCreated
  ∧ s.connFreed ≤ s.connCreated
  ∧ s.stmtFreed ≤ s.stmtCreated
  ∧ s.libCreated ≤ s.libFreed + libRefs s
  ∧ s.connCreated ≤ s.connFreed + connRefs s
  ∧ s.stmtCreated ≤ s.stmtFreed + s.stmtUser
  ∧ (s.libCreated = 0 → s.libUser = 0)
  ∧ (s.connCreated = 0 → s.connUser = 0)
  ∧ (s.stmtCreated = 0 → s.stmtUser = 0)
  ∧ (1 ≤ s.libFreed → libRefs s = 0)
  ∧ (1 ≤ s.connFreed → connRefs s = 0)
  ∧ (1 ≤ s.stmtFreed → s.stmtUser = 0)

/-! ## Theorems -/

/-- Claim C1: the spec requires every typed helper to record the buffer-type
tag corresponding to its C++ argument type, in particular
`MYSQL_TYPE_DOUBLE` for a double.  The code instead records
`MYSQL_TYPE_FLOAT` in `addParameter(const double&)` (while pairing it with
`sizeof(double)` and while `addResult(double&)` correctly records
`MYSQL_TYPE_DOUBLE`): evaluating the embedded helpers on a fresh statement
exhibits the divergence. -/
theorem addParameter_double_records_float_tag :
    (addParameter_double freshStatement 0).m_parameters =
      [mkBind .MYSQL_TYPE_FLOAT 0 sizeof_double]
    ∧ (addResult_double freshStatement 0).m_results =
      [mkBind .MYSQL_TYPE_DOUBLE 0 sizeof_double]
    ∧ (mkBind .MYSQL_TYPE_FLOAT 0 sizeof_double).buffer_type ≠
        enum_field_types.MYSQL_TYPE_DOUBLE :=
  ⟨rfl, rfl, by decide⟩

/-- Claim C3: `fetch` is tri-state: it returns `true` exactly when the
native `mysql_stmt_fetch` returns 0, `false` exactly when it returns
`MYSQL_NO_DATA`, and throws for every other native return value. -/
theorem fetch_tri_state (res : Int) :
    ((fetch res).1 = some true ∧ (fetch res).2 = none ↔ res = 0)
    ∧ ((fetch res).1 = some false ∧ (fetch res).2 = none ↔ res = MYSQL_NO_DATA)
    ∧ ((fetch res).2.isSome ↔ res ≠ 0 ∧ res ≠ MYSQL_NO_DATA) := by
  unfold fetch
  split_ifs with h1 h2 <;> simp_all [MYSQL_NO_DATA]

/-- Claim C7: `connect` throws exactly when the native connect call
returns null, `setAutoCommit` throws exactly when the native autocommit
call returns non-zero, and `getServerVersion` returns the native value
with no failure path. -/
theorem connection_ops_forward_and_translate :
    (∀ r : Option Nat, (connect r).isSome ↔ r = none)
    ∧ (∀ (b : Bool) (res : Int), (setAutoCommit b res).isSome ↔ res ≠ 0)
    ∧ (∀ v : Nat, getServerVersion v = v) := by
  refine ⟨?_, ?_, fun v => rfl⟩
  · intro r; cases r <;> simp [connect]
  · intro b res; unfold setAutoCommit; split_ifs with h <;> simp [h]

/-- Claim C8: every `addParameter` / `addResult` call appends exactly one
descriptor at the end of its own sequence (so descriptors appear in call
order), records exactly the given buffer-type tag, buffer pointer and
buffer length, zeroes all other descriptor fields, and touches nothing
else. -/
theorem add_helpers_append_in_call_order (st : MySQLPreparedStatement)
    (t : enum_field_types) (buf len : Nat) :
    (addParameter st t buf len).m_parameters = st.m_parameters ++ [mkBind t buf len]
    ∧ (addParameter st t buf len).m_results = st.m_results
    ∧ (addParameter st t buf len).m_errorCode = st.m_errorCode
    ∧ (addResult st t buf len).m_results = st.m_results ++ [mkBind t buf len]
    ∧ (addResult st t buf len).m_parameters = st.m_parameters
    ∧ (addResult st t buf len).m_errorCode = st.m_errorCode
    ∧ (mkBind t buf len).buffer_type = t
    ∧ (mkBind t buf len).buffer = buf
    ∧ (mkBind t buf len).buffer_length = len
    ∧ (mkBind t buf len).length = 0
    ∧ (mkBind t buf len).is_null = 0
    ∧ (mkBind t buf len).error = 0
    ∧ (mkBind t buf len).is_unsigned = 0 :=
  ⟨rfl, rfl, rfl, rfl, rfl, rfl, rfl, rfl, rfl, rfl, rfl, rfl, rfl⟩

/-- Claim C9: binding with no registered parameters (results) throws
`std::logic_error` with message "there are no parameters" ("there are no
results"), does not invoke the native bind call, and leaves the whole
statement state - error code and both descriptor sequences - unchanged. -/
theorem bind_with_empty_sequence_throws_logic_error
    (st : MySQLPreparedStatement) (res : Int) (etext : String) :
    (st.m_parameters = [] →
      bindParameters st res etext =
        (st, some (.logic_error "there are no parameters"), false))
    ∧ (st.m_results = [] →
      bindResults st res etext =
        (st, some (.logic_error "there are no results"), false)) := by
  constructor
  · intro h; simp [bindParameters, h]
  · intro h; simp [bindResults, h]

/-- Witness for C9 on a freshly constructed statement. -/
theorem bind_with_empty_sequence_throws_logic_error_witness :
    bindParameters freshStatement 0 "" =
      (freshStatement, some (.logic_error "there are no parameters"), false)
    ∧ bindResults freshStatement 0 "" =
      (freshStatement, some (.logic_error "there are no results"), false) :=
  ⟨(bind_with_empty_sequence_throws_logic_error freshStatement 0 "").1 rfl,
   (bind_with_empty_sequence_throws_logic_error freshStatement 0 "").2 rfl⟩

/-- Claim C10: `setParameterLength` is bounds-checked: in range it updates
only the buffer length of the descriptor at the given index, leaving that
descriptor's tag and pointer and all other descriptors and fields
unchanged; out of range it throws `std::out_of_range` (and hence, the
statement object is unchanged). -/
theorem setParameterLength_bounds_checked
    (st : MySQLPreparedStatement) (i len : Nat) :
    (i < st.m_parameters.length →
      ∃ st2, setParameterLength st i len = .ok st2
        ∧ st2.m_results = st.m_results
        ∧ st2.m_errorCode = st.m_errorCode
        ∧ st2.m_parameters.length = st.m_parameters.length
        ∧ (∀ j, j ≠ i → st2.m_parameters[j]? = st.m_parameters[j]?)
        ∧ (st2.m_parameters[i]?).map MYSQL_BIND.buffer_type =
            (st.m_parameters[i]?).map MYSQL_BIND.buffer_type
        ∧ (st2.m_parameters[i]?).map MYSQL_BIND.buffer =
            (st.m_parameters[i]?).map MYSQL_BIND.buffer
        ∧ (st2.m_parameters[i]?).map MYSQL_BIND.buffer_length = some len)
    ∧ (¬ i < st.m_parameters.length →
        setParameterLength st i len = .error .out_of_range) := by
  constructor
  · intro h
    refine ⟨{ st with m_parameters := st.m_parameters.set i { st.m_parameters.get ⟨i, h⟩ with buffer_length := len } }, ?_, rfl, rfl, ?_, ?_, ?_, ?_, ?_⟩
    · unfold setParameterLength; rw [dif_pos h]
    · simp
    · intro j hj
      exact List.getElem?_set_ne (by omega)
    · simp [List.getElem?_set_self, h, List.getElem?_eq_getElem]
    · simp [List.getElem?_set_self, h, List.getElem?_eq_getElem]
    · simp [List.getElem?_set_self, h, List.getElem?_eq_getElem]
  · intro h; unfold setParameterLength; rw [dif_neg h]

/-- A statement with a single registered int parameter. -/
def stmtWithOneParameter : MySQLPreparedStatement :=
  addParameter_int freshStatement 5

/-- Witness for C10: index 3 on a one-element parameter vector throws. -/
theorem setParameterLength_bounds_checked_witness :
    setParameterLength stmtWithOneParameter 3 7 = .error .out_of_range :=
  (setParameterLength_bounds_checked stmtWithOneParameter 3 7).2 (by decide)

/-- Claim C6: when `mysql_library_init` returns non-zero, construction
throws (no usable instance is produced) and `mysql_library_end` is never
called for that failed initialization. -/
theorem failed_init_no_library_end (initRes : Int) (h : initRes ≠ 0) :
    mySQLClientLibraryCtor initRes =
      .error (.runtime_error "failed to initialize MySQL client library")
    ∧ (libraryLifecycle initRes).1 =
      .error (.runtime_error "failed to initialize MySQL client library")
    ∧ (libraryLifecycle initRes).2 = false := by
  have hc : mySQLClientLibraryCtor initRes =
      .error (.runtime_error "failed to initialize MySQL client library") := by
    simp [mySQLClientLibraryCtor, h]
  refine ⟨hc, ?_, ?_⟩ <;> simp [libraryLifecycle, hc]

/-- Witness for C6 at native init result 1. -/
theorem failed_init_no_library_end_witness :
    mySQLClientLibraryCtor 1 =
      .error (.runtime_error "failed to initialize MySQL client library")
    ∧ (libraryLifecycle 1).1 =
      .error (.runtime_error "failed to initialize MySQL client library")
    ∧ (libraryLifecycle 1).2 = false :=
  failed_init_no_library_end 1 (by decide)

theorem regStep_preserves_RegInv {r r2 : LibRegistry} (hI : RegInv r)
    {e : RegEv} (h : regStep r e = some r2) : RegInv r2 := by
  cases e with
  | callCreateOrGet =>
    simp only [regStep, Option.some.injEq] at h
    subst h
    unfold createOrGet
    cases hl : lockWeak r with
    | some i => exact hI
    | none =>
      have hlive : r.live = [] := by
        cases hv : r.live with
        | nil => rfl
        | cons a as =>
          have hw := hI.2 a (by simp [hv])
          unfold lockWeak at hl
          rw [hw] at hl
          simp [hv] at hl
      constructor
      · simp [hlive]
      · intro i hi
        simp [hlive] at hi
        simp [hi]
  | releaseLast i =>
    simp only [regStep] at h
    split_ifs at h with hmem
    simp only [Option.some.injEq] at h
    subst h
    constructor
    · exact le_trans (List.Sublist.length_le (List.erase_sublist i r.live)) hI.1
    · intro j hj
      exact hI.2 j (List.mem_of_mem_erase hj)

theorem regRun_preserves_RegInv :
    ∀ (evs : List RegEv) (r r2 : LibRegistry),
      RegInv r → regRun r evs = some r2 → RegInv r2 := by
  intro evs
  induction evs with
  | nil =>
    intro r r2 hI h
    simp only [regRun, Option.some.injEq] at h
    exact h ▸ hI
  | cons e es ih =>
    intro r r2 hI h
    simp only [regRun] at h
    cases hs : regStep r e with
    | none => rw [hs] at h; exact absurd h (by simp)
    | some rmid =>
      rw [hs] at h
      exact ih rmid r2 (regStep_preserves_RegInv hI hs) h

/-- Claim C5: `createOrGet` has acquire-or-reuse-existing semantics: in
every reachable registry state at most one `MySQLClientLibrary` instance
is live, and while one is live every `createOrGet` call returns exactly
that instance and constructs nothing (the registry is unchanged). -/
theorem createOrGet_reuses_live_instance (evs : List RegEv) (r : LibRegistry)
    (h : regRun initRegistry evs = some r) :
    r.live.length ≤ 1 ∧ ∀ i ∈ r.live, createOrGet r = (i, r) := by
  have hI := regRun_preserves_RegInv evs initRegistry r
    (by constructor <;> simp [initRegistry]) h
  refine ⟨hI.1, ?_⟩
  intro i hi
  have hw := hI.2 i hi
  unfold createOrGet lockWeak
  rw [hw]
  simp [hi]

/-- Witness for C5: after one `createOrGet` call from process start, the
single instance is live and a further call returns it unchanged. -/
theorem createOrGet_reuses_live_instance_witness :
    ({ live := [0], weakInst := some 0, next := 1 } : LibRegistry).live.length ≤ 1
    ∧ createOrGet { live := [0], weakInst := some 0, next := 1 } =
        (0, { live := [0], weakInst := some 0, next := 1 }) := by
  have h := createOrGet_reuses_live_instance [RegEv.callCreateOrGet]
    { live := [0], weakInst := some 0, next := 1 } (by decide)
  exact ⟨h.1, h.2 0 (by decide)⟩

theorem isPrefixOf_self_chars (xs : List Char) : xs.isPrefixOf xs = true := by
  induction xs with
  | nil => rfl
  | cons a as ih => simp [List.isPrefixOf, ih]

theorem string_data_append (a b : String) : (a ++ b).data = a.data ++ b.data := by
  cases a; cases b; rfl

/-- A message of the form `p ++ etext` carries the native text `etext`. -/
theorem containsText_prefix_append (p etext : String) :
    containsText (p ++ etext) etext = true := by
  unfold containsText listInfix
  rw [List.any_eq_true]
  refine ⟨p.data.length, List.mem_range.mpr ?_, ?_⟩
  · rw [string_data_append, List.length_append]
    omega
  · rw [string_data_append, List.drop_left]
    exact isPrefixOf_self_chars etext.data

/-- Claim C2, counterexample: the failure-reporting policy as stated is
false — `fetch` (like `connect`, `setAutoCommit` and `stop`) throws a
fixed message that does not carry the native error text.  Instantiated at
native fetch result 1 with native error text "Unknown MySQL error". -/
theorem fetch_failure_lacks_native_error_text : ¬ nativeErrorTextAlwaysCarried := by
  intro h
  have hf := ((h "Unknown MySQL error").2.2.2.2.2.2.1) 1
  have hmsg := hf (.runtime_error "failed to fetch data") (by decide)
  exact absurd hmsg (by decide)

/-- Claim C2, amended: every non-zero/null native result is converted to
a thrown exception, but only the statement operations `prepare`,
`bindParameters`, `bindResults` and `execute` append the text of the
native error-reporting function (`mysql_stmt_error`) to the thrown
message; `connect`, `setAutoCommit`, `fetch` and `stop` throw fixed
messages that do not depend on the native error text. -/
theorem failure_reporting_policy (etext : String) (st : MySQLPreparedStatement)
    (res rf : Int) (b : Bool)
    (hres : res ≠ 0) (hrf0 : rf ≠ 0) (hrfnd : rf ≠ MYSQL_NO_DATA) :
    ((prepare st res etext).2 =
        some (.runtime_error ("failed to prepare prepared statement: " ++ etext))
      ∧ containsText ("failed to prepare prepared statement: " ++ etext) etext = true)
    ∧ (st.m_parameters ≠ [] →
        (bindParameters st res etext).2.1 =
          some (.runtime_error ("failed to bind parameters prepared statement: " ++ etext))
        ∧ containsText ("failed to bind parameters prepared statement: " ++ etext) etext = true)
    ∧ (st.m_results ≠ [] →
        (bindResults st res etext).2.1 =
          some (.runtime_error ("failed to bind results prepared statement: " ++ etext))
        ∧ containsText ("failed to bind results prepared statement: " ++ etext) etext = true)
    ∧ ((execute st res etext).2 =
        some (.runtime_error ("failed to execute prepared statement: " ++ etext))
      ∧ containsText ("failed to execute prepared statement: " ++ etext) etext = true)
    ∧ connect none = some (.runtime_error "could not connect to database server")
    ∧ setAutoCommit b res =
        some (.runtime_error ("could not set autocommit mode to "
          ++ (if b then "on" else "off")))
    ∧ (fetch rf).2 = some (.runtime_error "failed to fetch data")
    ∧ stop res = some (.runtime_error "failed to stop prepared statement") := by
  refine ⟨⟨?_, containsText_prefix_append _ _⟩, ?_, ?_,
    ⟨?_, containsText_prefix_append _ _⟩, rfl, ?_, ?_, ?_⟩
  · simp [prepare, hres]
  · intro hne
    exact ⟨by simp [bindParameters, hres, hne], containsText_prefix_append _ _⟩
  · intro hne
    exact ⟨by simp [bindResults, hres, hne], containsText_prefix_append _ _⟩
  · simp [execute, hres]
  · simp [setAutoCommit, hres]
  · simp [fetch, hrf0, hrfnd]
  · simp [stop, hres]

/-- A statement with one registered parameter and one registered result. -/
def stmtWithOneEach : MySQLPreparedStatement :=
  addResult_int (addParameter_int freshStatement 1) 2

/-- Witness for the amended C2 at native result 1 and error text "E". -/
theorem failure_reporting_policy_witness :
    (prepare stmtWithOneEach 1 "E").2 =
      some (.runtime_error ("failed to prepare prepared statement: " ++ "E"))
    ∧ containsText ("failed to prepare prepared statement: " ++ "E") "E" = true
    ∧ (bindParameters stmtWithOneEach 1 "E").2.1 =
      some (.runtime_error ("failed to bind parameters prepared statement: " ++ "E"))
    ∧ (bindResults stmtWithOneEach 1 "E").2.1 =
      some (.runtime_error ("failed to bind results prepared statement: " ++ "E"))
    ∧ (execute stmtWithOneEach 1 "E").2 =
      some (.runtime_error ("failed to execute prepared statement: " ++ "E"))
    ∧ connect none = some (.runtime_error "could not connect to database server")
    ∧ setAutoCommit true 1 =
      some (.runtime_error ("could not set autocommit mode to " ++ "on"))
    ∧ (fetch 1).2 = some (.runtime_error "failed to fetch data")
    ∧ stop 1 = some (.runtime_error "failed to stop prepared statement") := by
  have h := failure_reporting_policy "E" stmtWithOneEach 1 1 true
    (by decide) (by decide) (by decide)
  exact ⟨h.1.1, h.1.2, (h.2.1 (by decide)).1, (h.2.2.1 (by decide)).1,
    h.2.2.2.1.1, h.2.2.2.2.1, h.2.2.2.2.2.1, h.2.2.2.2.2.2.1, h.2.2.2.2.2.2.2⟩

theorem stepF_preserves_OwnInv {s : OwnSt} (hI : OwnInv s) (e : Ev) :
    OwnInv (stepF s e) := by
  rcases s with ⟨lc, cc, sc, lu, cu, su, chl, shc, lf, cf, sf⟩
  simp only [OwnInv, libRefs, connRefs] at hI
  cases e <;>
    simp only [stepF, destroyStmt, destroyConn, destroyLib, releaseConnRef,
      releaseLibRef] <;>
    split_ifs <;>
    simp only [OwnInv, libRefs, connRefs] <;>
    omega

theorem runOwn_preserves_OwnInv :
    ∀ (evs : List Ev) (s : OwnSt), OwnInv s → OwnInv (List.foldl stepF s evs) := by
  intro evs
  induction evs with
  | nil => intro s h; exact h
  | cons e es ih => intro s h; exact ih _ (stepF_preserves_OwnInv h e)

/-- Claim C4: along every trace of the ownership chain, each native
resource is released at most once; a created resource is released exactly
when (and only when) its last shared reference is gone; releases follow
the chain in reverse-acquisition order (the connection is never released
before its statement, the library never before its connection); and once
all user references are dropped every created resource has been released
exactly once — all a consequence of the member-held shared references,
with no explicit sequencing in the model. -/
theorem ownership_chain_release_order (evs : List Ev) :
    ((runOwn evs).libFreed ≤ 1 ∧ (runOwn evs).connFreed ≤ 1 ∧ (runOwn evs).stmtFreed ≤ 1)
    ∧ ((runOwn evs).libCreated = 1 →
        (1 ≤ (runOwn evs).libFreed ↔ libRefs (runOwn evs) = 0))
    ∧ ((runOwn evs).connCreated = 1 →
        (1 ≤ (runOwn evs).connFreed ↔ connRefs (runOwn evs) = 0))
    ∧ ((runOwn evs).stmtCreated = 1 →
        (1 ≤ (runOwn evs).stmtFreed ↔ (runOwn evs).stmtUser = 0))
    ∧ (1 ≤ (runOwn evs).connFreed → (runOwn evs).stmtCreated = 1 →
        (runOwn evs).stmtFreed = 1)
    ∧ (1 ≤ (runOwn evs).libFreed → (runOwn evs).connCreated = 1 →
        (runOwn evs).connFreed = 1)
    ∧ ((runOwn evs).libCreated = 1 ∧ (runOwn evs).libUser = 0
        ∧ (runOwn evs).connUser = 0 ∧ (runOwn evs).stmtUser = 0 →
        (runOwn evs).libFreed = 1
        ∧ ((runOwn evs).connCreated = 1 → (runOwn evs).connFreed = 1)
        ∧ ((runOwn evs).stmtCreated = 1 → (runOwn evs).stmtFreed = 1)) := by
  have hI := runOwn_preserves_OwnInv evs initOwn
    (by simp [OwnInv, initOwn, libRefs, connRefs])
  unfold runOwn
  simp only [OwnInv, libRefs, connRefs] at hI ⊢
  repeat' apply And.intro
  all_goals omega

/-- Witness for C4: the canonical create-use-teardown trace releases each
of the three resources exactly once. -/
theorem ownership_chain_release_order_witness :
    (runOwn [Ev.mkLib, Ev.mkConn, Ev.mkStmt, Ev.dropStmt, Ev.dropConn, Ev.dropLib]).libFreed = 1
    ∧ (runOwn [Ev.mkLib, Ev.mkConn, Ev.mkStmt, Ev.dropStmt, Ev.dropConn, Ev.dropLib]).connFreed = 1
    ∧ (runOwn [Ev.mkLib, Ev.mkConn, Ev.mkStmt, Ev.dropStmt, Ev.dropConn, Ev.dropLib]).stmtFreed = 1 := by
  have h := (ownership_chain_release_order
    [Ev.mkLib, Ev.mkConn, Ev.mkStmt, Ev.dropStmt, Ev.dropConn, Ev.dropLib]).2.2.2.2.2.2
    (by decide)
  exact ⟨h.1, h.2.1 (by decide), h.2.2 (by decide)⟩
